import Mathlib

/-!
Verification of the zephyr deployment orchestrator.

This file gives a shallow embedding of the core of the repository
(the diff-driven task planner, the dual-sided lock protocol, the
resumable snapshot mechanism, the remote command executor's failure
classification, and the local repository reconciler) and proves the
specification claims about them.

Conventions of the embedding:
* JavaScript strings are Lean `String`s; `Array.isArray` guards are
  modelled with an explicit sum type; truthiness of a possibly-null
  field is modelled with `Option`.
* Stateful code (lock files, snapshot files) becomes explicit state
  passing over small `structure` world types; file-system and shell
  operations that the source issues (`cat`, `rm -f`, `base64 --decode >`)
  are modelled as their effect on that state, assuming a functioning
  remote shell (a non-zero exit of these plumbing commands is not the
  behaviour any claim is about).
* `new Date().toISOString()` is modelled by an abstract clock: the
  world carries a tick counter and the environment a function
  `time : Nat → String` giving the timestamp string observed at each
  successive call.
* Throwing JavaScript functions return `Except String α` where the
  `String` is the thrown error message.
-/

namespace Zephyr

/-! ## Task planner (`src/utils/task-planner.mjs`) -/

structure TaskStep where
  label : String
  command : String
deriving DecidableEq, Repr

/-- A JavaScript value passed as `changedFiles`: either a genuine array of
strings, or any non-array value (`null`, `undefined`, a number, ...),
which `Array.isArray` rejects. -/
inductive ChangedFilesInput where
  | arr : List String → ChangedFilesInput
  | notArray : ChangedFilesInput
deriving DecidableEq, Repr

/-- `Array.isArray(changedFiles) ? changedFiles : []` -/
def safeChangedFilesOf : ChangedFilesInput → List String
  | .arr l => l
  | .notArray => []

structure PlannerArgs where
  branch : String
  isLaravel : Bool
  changedFiles : ChangedFilesInput
  horizonConfigured : Bool := false
  phpCommand : String := "php"

/-- JavaScript `String.prototype.endsWith`, as a kernel-computable suffix
test on the character lists. -/
def strEndsWith (s suffix : String) : Bool :=
  suffix.data.isSuffixOf s.data

/-- JavaScript `String.prototype.startsWith`, as a kernel-computable test
on the character lists. -/
def strStartsWith (s pre : String) : Bool :=
  pre.data.isPrefixOf s.data

def isComposerFile (file : String) : Bool :=
  file == "composer.json" || file == "composer.lock" ||
    strEndsWith file "/composer.json" || strEndsWith file "/composer.lock"

def isMigrationFile (file : String) : Bool :=
  strStartsWith file "database/migrations/" && strEndsWith file ".php"

def isPhpFile (file : String) : Bool :=
  strEndsWith file ".php"

def isNpmFile (file : String) : Bool :=
  file == "package.json" || file == "package-lock.json" ||
    strEndsWith file "/package.json" || strEndsWith file "/package-lock.json"

def frontendExtensions : List String :=
  [".vue", ".css", ".scss", ".js", ".ts", ".tsx", ".less"]

def isFrontendFile (file : String) : Bool :=
  frontendExtensions.any (fun ext => strEndsWith file ext)

def pullStep (branch : String) : TaskStep :=
  { label := "Pull latest changes for " ++ branch
    command := "git pull origin " ++ branch }

def composerStep (phpCommand : String) : TaskStep :=
  { label := "Install Composer dependencies"
    command :=
      "if [ ! -f composer.lock ]; then echo \"composer.lock is missing; commit composer.lock for reproducible deploys.\" >&2; exit 1; fi; if [ -f composer.phar ]; then "
        ++ phpCommand
        ++ " composer.phar install --no-dev --no-interaction --prefer-dist --optimize-autoloader; elif command -v composer >/dev/null 2>&1; then "
        ++ phpCommand
        ++ " $(command -v composer) install --no-dev --no-interaction --prefer-dist --optimize-autoloader; else "
        ++ phpCommand
        ++ " composer install --no-dev --no-interaction --prefer-dist --optimize-autoloader; fi" }

def migrationsStep (phpCommand : String) : TaskStep :=
  { label := "Run database migrations"
    command := phpCommand ++ " artisan migrate --force" }

def npmInstallStep : TaskStep :=
  { label := "Install Node dependencies", command := "npm install" }

def buildStep : TaskStep :=
  { label := "Compile frontend assets", command := "npm run build" }

def clearCachesStep (phpCommand : String) : TaskStep :=
  { label := "Clear Laravel caches"
    command := phpCommand ++ " artisan cache:clear && " ++ phpCommand
      ++ " artisan config:clear && " ++ phpCommand ++ " artisan view:clear" }

def queueRestartStep (horizonConfigured : Bool) (phpCommand : String) : TaskStep :=
  { label := if horizonConfigured then "Restart Horizon workers" else "Restart queue workers"
    command := if horizonConfigured then phpCommand ++ " artisan horizon:terminate"
      else phpCommand ++ " artisan queue:restart" }

/-- `planLaravelDeploymentTasks` from `src/utils/task-planner.mjs`. -/
def planLaravelDeploymentTasks (a : PlannerArgs) : List TaskStep :=
  let safeChangedFiles := safeChangedFilesOf a.changedFiles
  let shouldRunComposer := a.isLaravel && safeChangedFiles.any isComposerFile
  let shouldRunMigrations := a.isLaravel && safeChangedFiles.any isMigrationFile
  let hasPhpChanges := a.isLaravel && safeChangedFiles.any isPhpFile
  let shouldRunNpmInstall := a.isLaravel && safeChangedFiles.any isNpmFile
  let hasFrontendChanges := a.isLaravel && safeChangedFiles.any isFrontendFile
  let shouldRunBuild := a.isLaravel && (hasFrontendChanges || shouldRunNpmInstall)
  let shouldClearCaches := hasPhpChanges
  let shouldRestartQueues := hasPhpChanges
  [pullStep a.branch]
    ++ (if shouldRunComposer then [composerStep a.phpCommand] else [])
    ++ (if shouldRunMigrations then [migrationsStep a.phpCommand] else [])
    ++ (if shouldRunNpmInstall then [npmInstallStep] else [])
    ++ (if shouldRunBuild then [buildStep] else [])
    ++ (if shouldClearCaches then [clearCachesStep a.phpCommand] else [])
    ++ (if shouldRestartQueues then [queueRestartStep a.horizonConfigured a.phpCommand] else [])

/-! ### Planner lemmas -/

lemma mem_ite_singleton {α : Type} {x s : α} {c : Prop} [Decidable c]
    (h : x ∈ if c then [s] else []) : x = s := by
  split at h
  · simpa using h
  · simp at h

lemma pullStep_label_ne (branch target : String)
    (hhead : target.data.head? ≠ some 'P') : (pullStep branch).label ≠ target := by
  obtain ⟨l⟩ := branch
  intro he
  apply hhead
  rw [← he]
  rfl

lemma npm_ne_pull (branch : String) : npmInstallStep ≠ pullStep branch := by
  intro h
  exact pullStep_label_ne branch "Install Node dependencies" (by decide)
    (congrArg TaskStep.label h).symm

lemma npm_ne_composer (php : String) : npmInstallStep ≠ composerStep php := by
  intro h
  have hl : "Install Node dependencies" = "Install Composer dependencies" :=
    congrArg TaskStep.label h
  exact absurd hl (by decide)

lemma npm_ne_migrations (php : String) : npmInstallStep ≠ migrationsStep php := by
  intro h
  have hl : "Install Node dependencies" = "Run database migrations" :=
    congrArg TaskStep.label h
  exact absurd hl (by decide)

lemma npm_ne_build : npmInstallStep ≠ buildStep := by
  intro h
  have hl : "Install Node dependencies" = "Compile frontend assets" :=
    congrArg TaskStep.label h
  exact absurd hl (by decide)

lemma npm_ne_caches (php : String) : npmInstallStep ≠ clearCachesStep php := by
  intro h
  have hl : "Install Node dependencies" = "Clear Laravel caches" :=
    congrArg TaskStep.label h
  exact absurd hl (by decide)

lemma npm_ne_queue (horizon : Bool) (php : String) :
    npmInstallStep ≠ queueRestartStep horizon php := by
  cases horizon
  · intro h
    have hl : "Install Node dependencies" = "Restart queue workers" :=
      congrArg TaskStep.label h
    exact absurd hl (by decide)
  · intro h
    have hl : "Install Node dependencies" = "Restart Horizon workers" :=
      congrArg TaskStep.label h
    exact absurd hl (by decide)

set_option maxRecDepth 100000 in
/-- C3: on branch `main` with changed files `composer.json`, a migration under
`database/migrations/` and `resources/js/app.js`, for a Laravel project with
Horizon not configured, the planner returns exactly the six steps
pull, composer install, migrations, frontend build, cache clear, and the
non-Horizon queue restart, in that order. -/
theorem plan_main_scenario_six_steps :
    planLaravelDeploymentTasks
      { branch := "main", isLaravel := true,
        changedFiles := .arr ["composer.json",
          "database/migrations/2025_01_01_create_x.php", "resources/js/app.js"],
        horizonConfigured := false, phpCommand := "php" } =
      [pullStep "main", composerStep "php", migrationsStep "php", buildStep,
        clearCachesStep "php", queueRestartStep false "php"] := by
  rfl

/-- C10: when `changedFiles` is not an array (e.g. `null` or `undefined`),
the planner does not throw and returns exactly the single pull step for the
given branch, for every branch, `isLaravel` flag, Horizon flag and PHP
command. -/
theorem plan_notArray_single_pull (branch : String) (isLaravel horizonConfigured : Bool)
    (phpCommand : String) :
    planLaravelDeploymentTasks
      { branch := branch, isLaravel := isLaravel, changedFiles := .notArray,
        horizonConfigured := horizonConfigured, phpCommand := phpCommand } =
      [pullStep branch] := by
  simp [planLaravelDeploymentTasks, safeChangedFilesOf]

set_option maxRecDepth 100000 in
/-- C4 counterexample: for changed files `["composer.json"]` on a Laravel
project, the plan contains the Composer install step (an install-dependency
step) but not the frontend build step — so an install-dependency step in the
plan does not imply the build step. -/
theorem composer_without_build_counterexample :
    composerStep "php" ∈ planLaravelDeploymentTasks
        { branch := "main", isLaravel := true, changedFiles := .arr ["composer.json"] } ∧
      buildStep ∉ planLaravelDeploymentTasks
        { branch := "main", isLaravel := true, changedFiles := .arr ["composer.json"] } := by
  decide

/-- C4 amended: whenever the JS (npm) install step is present in the returned
plan, the frontend build step is also present, even if no frontend-extension
file is in the changed-file set; the backend (Composer) install step alone
does not imply the build step. -/
theorem npm_install_implies_build (a : PlannerArgs)
    (h : npmInstallStep ∈ planLaravelDeploymentTasks a) :
    buildStep ∈ planLaravelDeploymentTasks a := by
  by_cases hn :
      (a.isLaravel && (safeChangedFilesOf a.changedFiles).any isNpmFile) = true
  · have hl : a.isLaravel = true := ((Bool.and_eq_true _ _).mp hn).1
    have hany : (safeChangedFilesOf a.changedFiles).any isNpmFile = true :=
      ((Bool.and_eq_true _ _).mp hn).2
    simp only [planLaravelDeploymentTasks, List.mem_append]
    refine Or.inl (Or.inl (Or.inr ?_))
    simp [hl, hany]
  · exfalso
    simp only [planLaravelDeploymentTasks, hn] at h
    simp [npm_ne_pull, npm_ne_composer, npm_ne_migrations, npm_ne_build,
      npm_ne_caches, npm_ne_queue] at h

/-- Witness for the amended C4 theorem at a concrete input: with changed files
`["package.json"]` the npm install step is in the plan, and the theorem yields
the build step's presence. -/
theorem npm_install_implies_build_witness :
    buildStep ∈ planLaravelDeploymentTasks
      { branch := "main", isLaravel := true, changedFiles := .arr ["package.json"] } :=
  npm_install_implies_build
    { branch := "main", isLaravel := true, changedFiles := .arr ["package.json"] }
    (by decide)

/-! ## String helpers shared by the executor and reconciler models

JavaScript's `trim`, `split('\n')` and regex substring tests, re-expressed
as structural recursion over character lists so the kernel can evaluate
them. -/

def isJsWhitespace (c : Char) : Bool :=
  c == ' ' || c == '\t' || c == '\n' || c == '\r'

/-- JavaScript `String.prototype.trim` (restricted to the whitespace kinds
that occur in this system's data). -/
def strTrim (s : String) : String :=
  ⟨((s.data.dropWhile isJsWhitespace).reverse.dropWhile isJsWhitespace).reverse⟩

/-- `containsSub pat l` holds when `pat` occurs as a contiguous sublist of
`l`; this is what an unanchored regex literal like `/command not found/`
tests on a string. -/
def containsSub (pat : List Char) : List Char → Bool
  | [] => pat.isEmpty
  | c :: cs => pat.isPrefixOf (c :: cs) || containsSub pat cs

def strContainsSubstr (s pat : String) : Bool :=
  containsSub pat.data s.data

/-- JavaScript `split('\n')`: cut a character list at each newline,
keeping empty segments. -/
def splitLinesAux : List Char → List (List Char)
  | [] => [[]]
  | c :: cs =>
    match splitLinesAux cs with
    | [] => [[]]
    | line :: rest => if c == '\n' then [] :: line :: rest else (c :: line) :: rest

def splitLines (s : String) : List String :=
  (splitLinesAux s.data).map String.mk

/-! ## Remote executor failure classification (`createRemoteExecutor`)

The executor wraps `ssh.execCommand`; the claims concern what it does with
the result `{code, stdout, stderr}`: it throws exactly when the exit code
is non-zero and `allowFailure` is unset, choosing between an enriched
PATH/profile message and a generic one by a pattern test on the trimmed
stderr. -/

structure ExecCommandResult where
  code : Int
  stdout : String
  stderr : String
deriving DecidableEq, Repr

/-- `/command not found/.test(stderr) || /is not recognized/.test(stderr)` -/
def isCommandNotFoundStderr (stderr : String) : Bool :=
  strContainsSubstr stderr "command not found" || strContainsSubstr stderr "is not recognized"

def enrichedFailureMessage (command : String) : String :=
  "Command failed: " ++ command ++
    ". Ensure the remote environment loads required tools for non-interactive shells (e.g. export PATH in profile scripts)."

def genericFailureMessage (command : String) : String :=
  "Command failed: " ++ command

/-- The throw/return decision at the end of `executeRemote`
(`src` remote executor, lines 71–97): logging aside, on a non-zero exit
with `allowFailure` unset it throws, with the enriched message when the
trimmed stderr matches a command-not-found pattern; otherwise it returns
the result. -/
def executeRemoteOutcome (command : String) (allowFailure : Bool)
    (result : ExecCommandResult) : Except String ExecCommandResult :=
  if result.code != 0 && !allowFailure then
    let stderr := strTrim result.stderr
    if isCommandNotFoundStderr stderr then
      .error (enrichedFailureMessage command)
    else
      .error (genericFailureMessage command)
  else
    .ok result

/-- C8: the remote executor throws iff the exit code is non-zero and
`allowFailure` is unset; when it throws and the trimmed stderr matches a
command-not-found pattern the message is the enriched PATH/profile
suggestion, and otherwise the generic failure message. -/
theorem executeRemote_failure_classification (command : String) (allowFailure : Bool)
    (result : ExecCommandResult) :
    ((executeRemoteOutcome command allowFailure result).isOk = false ↔
      result.code ≠ 0 ∧ allowFailure = false) ∧
    (result.code ≠ 0 → allowFailure = false →
      isCommandNotFoundStderr (strTrim result.stderr) = true →
      executeRemoteOutcome command allowFailure result =
        .error (enrichedFailureMessage command)) ∧
    (result.code ≠ 0 → allowFailure = false →
      isCommandNotFoundStderr (strTrim result.stderr) = false →
      executeRemoteOutcome command allowFailure result =
        .error (genericFailureMessage command)) := by
  refine ⟨⟨fun h => ?_, fun h => ?_⟩, fun hc ha hm => ?_, fun hc ha hm => ?_⟩
  · by_cases hc : result.code = 0
    · exfalso
      revert h
      simp [executeRemoteOutcome, hc, Except.isOk, Except.toBool]
    · cases ha : allowFailure
      · exact ⟨hc, rfl⟩
      · exfalso
        revert h
        simp [executeRemoteOutcome, hc, ha, Except.isOk, Except.toBool]
  · obtain ⟨hc, ha⟩ := h
    simp only [executeRemoteOutcome, ha, bne_iff_ne, ne_eq, hc, not_false_eq_true,
      Bool.not_false, Bool.and_true, if_true]
    split <;> rfl
  · simp [executeRemoteOutcome, hc, ha, hm]
  · simp [executeRemoteOutcome, hc, ha, hm]

/-- Witness for C8 at a concrete input: exit code 127 with a
`command not found` stderr and `allowFailure` unset yields the enriched
error. -/
theorem executeRemote_failure_classification_witness :
    executeRemoteOutcome "npm install" false
        { code := 127, stdout := "", stderr := "bash: npm: command not found" } =
      .error (enrichedFailureMessage "npm install") :=
  (executeRemote_failure_classification "npm install" false
    { code := 127, stdout := "", stderr := "bash: npm: command not found" }).2.1
    (by decide) rfl (by decide)

/-! ## Snapshot store and the resume gate (`main`, `runRemoteTasks`) -/

structure PendingSnapshot where
  serverName : String
  branch : String
  projectPath : String
  sshUser : String
  createdAt : String
  changedFiles : Option (List String)
  taskLabels : List String
deriving DecidableEq, Repr

/-- The server/branch of the current deployment target, as selected by the
operator before `runRemoteTasks` is invoked. -/
structure DeploymentSelection where
  serverName : String
  branch : String
deriving DecidableEq, Repr

/-- Result of the snapshot-resume gate in `main` (lines 860–894): which
snapshot is passed on to `runRemoteTasks`, what remains on disk, and the
`default` of the confirmation prompt (`none` when no prompt was shown). -/
structure SnapshotGateResult where
  snapshotToUse : Option PendingSnapshot
  localSnapshotAfter : Option PendingSnapshot
  promptDefault : Option Bool
deriving DecidableEq, Repr

/-- The snapshot-resume gate in `main`: when a pending snapshot exists a
confirmation prompt is shown whose default is `matchesSelection`
(snapshot's serverName and branch both equal the target's); accepting
passes the snapshot on, declining clears it from disk. `resumeAnswer` is
the operator's answer to that prompt. -/
def snapshotGate (existing : Option PendingSnapshot) (sel : DeploymentSelection)
    (resumeAnswer : Bool) : SnapshotGateResult :=
  match existing with
  | none => ⟨none, none, none⟩
  | some snap =>
    let matchesSelection :=
      snap.serverName == sel.serverName && snap.branch == sel.branch
    if resumeAnswer then ⟨some snap, some snap, some matchesSelection⟩
    else ⟨none, none, some matchesSelection⟩

/-- C7: when a pending snapshot exists, the resume prompt's default is
"yes" iff the snapshot's serverName and branch both equal the current
target's, "no" otherwise, and declining clears the snapshot. -/
theorem resume_prompt_default_spec (snap : PendingSnapshot)
    (sel : DeploymentSelection) (answer : Bool) :
    ((snapshotGate (some snap) sel answer).promptDefault = some true ↔
      snap.serverName = sel.serverName ∧ snap.branch = sel.branch) ∧
    ((snapshotGate (some snap) sel answer).promptDefault = some false ↔
      ¬(snap.serverName = sel.serverName ∧ snap.branch = sel.branch)) ∧
    (snapshotGate (some snap) sel false).localSnapshotAfter = none := by
  refine ⟨?_, ?_, ?_⟩
  · cases answer <;> simp [snapshotGate, Bool.and_eq_true]
  · cases answer <;> simp [snapshotGate, Bool.and_eq_true]
  · simp [snapshotGate]

/-! ## Planning phase of `runRemoteTasks` (`main.mjs` lines 465–515)

`runRemoteTasks` either takes `snapshot.changedFiles` verbatim (when a
confirmed snapshot carries a truthy `changedFiles`) or, for a Laravel
project, derives the change set from the remote `git diff --name-only`
output; it then probes for Horizon only when a PHP file changed, and calls
the planner with the default `phpCommand`. -/

/-- `diffResult.stdout.split(/\r?\n/).map(trim).filter(Boolean)` -/
def parseDiffOutput (stdout : String) : List String :=
  ((splitLines stdout).map strTrim).filter (fun line => line.length != 0)

/-- The change-set resolution at the top of the planning section:
`snapshot && snapshot.changedFiles` keeps the stored list verbatim,
otherwise a Laravel project diffs the remote. `none` for `changedFiles`
models a snapshot whose field is absent/null (falsy). -/
def resolveChangedFiles (snapshot : Option PendingSnapshot) (isLaravel : Bool)
    (diffStdout : String) : List String :=
  match snapshot with
  | some snap =>
    match snap.changedFiles with
    | some files => files
    | none => if isLaravel then parseDiffOutput diffStdout else []
  | none => if isLaravel then parseDiffOutput diffStdout else []

/-- The whole planning phase: resolve the change set, probe Horizon only
when a PHP file changed (`horizonProbe` is what the remote
`config/horizon.php` check would answer), and plan. `phpCommand` is left
at its default, as in `runRemoteTasks`. -/
def planningPhase (snapshot : Option PendingSnapshot) (branch : String)
    (isLaravel : Bool) (diffStdout : String) (horizonProbe : Bool) : List TaskStep :=
  let changedFiles := resolveChangedFiles snapshot isLaravel diffStdout
  let hasPhpChanges := isLaravel && changedFiles.any isPhpFile
  let horizonConfigured := if hasPhpChanges then horizonProbe else false
  planLaravelDeploymentTasks
    { branch := branch, isLaravel := isLaravel, changedFiles := .arr changedFiles,
      horizonConfigured := horizonConfigured, phpCommand := "php" }

lemma plan_not_laravel (branch : String) (changedFiles : ChangedFilesInput)
    (horizon : Bool) (php : String) :
    planLaravelDeploymentTasks
      { branch := branch, isLaravel := false, changedFiles := changedFiles,
        horizonConfigured := horizon, phpCommand := php } = [pullStep branch] := by
  simp [planLaravelDeploymentTasks]

/-- C5: resuming from a snapshot never re-derives the change set: when the
snapshot stores `changedFiles`, the plan is the planner applied to exactly
that stored list (the live diff output is irrelevant), and it coincides
with a fresh computation whose diff yields that exact list. -/
theorem resume_plans_from_snapshot_files (snap : PendingSnapshot) (branch : String)
    (isLaravel : Bool) (diffStdout freshStdout : String) (horizonProbe : Bool)
    (files : List String) (h : snap.changedFiles = some files) :
    (planningPhase (some snap) branch isLaravel diffStdout horizonProbe =
      planLaravelDeploymentTasks
        { branch := branch, isLaravel := isLaravel, changedFiles := .arr files,
          horizonConfigured :=
            if isLaravel && files.any isPhpFile then horizonProbe else false,
          phpCommand := "php" }) ∧
    (parseDiffOutput freshStdout = files →
      planningPhase (some snap) branch isLaravel diffStdout horizonProbe =
        planningPhase none branch isLaravel freshStdout horizonProbe) := by
  constructor
  · simp only [planningPhase, resolveChangedFiles, h]
  · intro hfresh
    cases hl : isLaravel
    · simp only [planningPhase, resolveChangedFiles, h, if_false, Bool.false_and,
        plan_not_laravel]
    · simp only [planningPhase, resolveChangedFiles, h, if_true, hfresh]

/-- Witness for C5 at the spec's example: a snapshot storing
`changedFiles: ["composer.json"]` yields the planner's output for exactly
`["composer.json"]`, regardless of a live diff that would report a
different file. -/
theorem resume_plans_from_snapshot_files_witness :
    planningPhase
        (some { serverName := "prod", branch := "main", projectPath := "~/app",
                sshUser := "deploy", createdAt := "2026-01-01T00:00:00.000Z",
                changedFiles := some ["composer.json"],
                taskLabels := ["Pull latest changes for main"] })
        "main" true "app/Other.php\n" true =
      planLaravelDeploymentTasks
        { branch := "main", isLaravel := true,
          changedFiles := .arr ["composer.json"],
          horizonConfigured :=
            if true && (["composer.json"].any isPhpFile) then true else false,
          phpCommand := "php" } :=
  (resume_plans_from_snapshot_files
    { serverName := "prod", branch := "main", projectPath := "~/app",
      sshUser := "deploy", createdAt := "2026-01-01T00:00:00.000Z",
      changedFiles := some ["composer.json"],
      taskLabels := ["Pull latest changes for main"] }
    "main" true "app/Other.php\n" "" true ["composer.json"] rfl).1

/-! ## Execution phase of `runRemoteTasks` (`main.mjs` lines 517–570)

The snapshot is saved to both sides only when the plan has more than the
trivial pull step; the steps run strictly in order aborting on the first
failure; the two snapshot copies are removed only in the `finally` block
and only when every step completed. -/

/-- The two persisted copies of the pending-tasks snapshot: the local
`.zephyr/pending-tasks.json` and its mirror in the remote project
directory. -/
structure SnapshotStoreState where
  localSnapshot : Option PendingSnapshot
  remoteSnapshot : Option PendingSnapshot
deriving DecidableEq, Repr

/-- The `for (const step of steps) await executeRemote(...)` loop: run the
steps in order, stopping at the first one that throws; `true` means every
step executed without throwing. `ok` tells whether a given step's remote
command succeeds. -/
def runSteps (ok : TaskStep → Bool) : List TaskStep → Bool
  | [] => true
  | s :: rest => if ok s then runSteps ok rest else false

lemma runSteps_eq_all (ok : TaskStep → Bool) (steps : List TaskStep) :
    runSteps ok steps = steps.all ok := by
  induction steps with
  | nil => rfl
  | cons s rest ih =>
    simp only [runSteps, List.all_cons, ih]
    cases ok s <;> simp

/-- The execution phase of `runRemoteTasks`: compute `usefulSteps`, persist
the snapshot (the resumed one if any, else the freshly built one) to both
stores when useful, run the steps, and clear both stores only when
`usefulSteps && completed`. Returns `(completed, final snapshot stores)`. -/
def executionPhase (stateIn : SnapshotStoreState) (resumedSnapshot : Option PendingSnapshot)
    (freshSnapshot : PendingSnapshot) (steps : List TaskStep) (ok : TaskStep → Bool) :
    Bool × SnapshotStoreState :=
  let usefulSteps := decide (steps.length > 1)
  let afterSave :=
    if usefulSteps then
      let pendingSnapshot := resumedSnapshot.getD freshSnapshot
      { localSnapshot := some pendingSnapshot, remoteSnapshot := some pendingSnapshot }
    else stateIn
  let completed := runSteps ok steps
  let afterClear :=
    if usefulSteps && completed then
      { localSnapshot := none, remoteSnapshot := none }
    else afterSave
  (completed, afterClear)

/-- C6: the pending snapshot is persisted (locally and remotely) only when
the plan has more than the trivial pull step; both copies are cleared only
when every step executed without throwing, and if any step throws both
copies are left in place. -/
theorem snapshot_persistence_lifecycle (stateIn : SnapshotStoreState)
    (resumed : Option PendingSnapshot) (fresh : PendingSnapshot)
    (steps : List TaskStep) (ok : TaskStep → Bool) :
    (steps.length ≤ 1 →
      (executionPhase stateIn resumed fresh steps ok).2 = stateIn) ∧
    (1 < steps.length → runSteps ok steps = false →
      (executionPhase stateIn resumed fresh steps ok).2 =
        { localSnapshot := some (resumed.getD fresh),
          remoteSnapshot := some (resumed.getD fresh) }) ∧
    (1 < steps.length → runSteps ok steps = true →
      (executionPhase stateIn resumed fresh steps ok).2 =
        { localSnapshot := none, remoteSnapshot := none }) := by
  refine ⟨fun hlen => ?_, fun hlen hfail => ?_, fun hlen hdone => ?_⟩
  · have : ¬ (1 < steps.length) := by omega
    simp [executionPhase, this]
  · simp [executionPhase, hlen, hfail]
  · simp [executionPhase, hlen, hdone]

/-- Witness for C6: with a two-step plan whose second step fails, the final
state keeps both snapshot copies. -/
theorem snapshot_persistence_lifecycle_witness :
    (executionPhase ⟨none, none⟩ none
        { serverName := "prod", branch := "main", projectPath := "~/app",
          sshUser := "deploy", createdAt := "t", changedFiles := some ["composer.json"],
          taskLabels := [] }
        [pullStep "main", composerStep "php"]
        (fun s => s.label == "Pull latest changes for main")).2 =
      { localSnapshot := some
          { serverName := "prod", branch := "main", projectPath := "~/app",
            sshUser := "deploy", createdAt := "t", changedFiles := some ["composer.json"],
            taskLabels := [] },
        remoteSnapshot := some
          { serverName := "prod", branch := "main", projectPath := "~/app",
            sshUser := "deploy", createdAt := "t", changedFiles := some ["composer.json"],
            taskLabels := [] } } :=
  (snapshot_persistence_lifecycle ⟨none, none⟩ none
    { serverName := "prod", branch := "main", projectPath := "~/app",
      sshUser := "deploy", createdAt := "t", changedFiles := some ["composer.json"],
      taskLabels := [] }
    [pullStep "main", composerStep "php"]
    (fun s => s.label == "Pull latest changes for main")).2.1
    (by decide) (by decide)

/-! ## Lock coordinator (`src/deploy/locks.mjs`)

The lock world holds the parsed contents of the local
`.zephyr/deploy.lock` and of the remote `.zephyr/deploy.lock` (the model
covers remote lock files that parse as full payloads — the only kind this
system itself writes), plus the tick counter of the abstract clock.
The environment carries the fixed process identity (`os.userInfo().username`,
`process.pid`, `os.hostname()`), the timestamp observed at each clock tick,
and the operator's answer to the stale-lock prompt. -/

structure LockPayload where
  user : String
  pid : Nat
  hostname : String
  startedAt : String
deriving DecidableEq, Repr

structure ProcessIdentity where
  user : String
  pid : Nat
  hostname : String
deriving DecidableEq, Repr

structure LockEnv where
  identity : ProcessIdentity
  time : Nat → String
  confirmRemove : Bool

structure LockWorld where
  localLock : Option LockPayload
  remoteLock : Option LockPayload
  clock : Nat
deriving DecidableEq, Repr

/-- `createLockPayload`: a fresh payload with the process identity and
`new Date().toISOString()`; each call observes the clock and advances it. -/
def createLockPayload (env : LockEnv) (w : LockWorld) : LockPayload × LockWorld :=
  (⟨env.identity.user, env.identity.pid, env.identity.hostname, env.time w.clock⟩,
    { w with clock := w.clock + 1 })

/-- `acquireLocalLock`: create a payload and write it to the local lock
file. Note the source creates a *new* payload here rather than reusing
one. -/
def acquireLocalLock (env : LockEnv) (w : LockWorld) : LockPayload × LockWorld :=
  let p := createLockPayload env w
  (p.1, { p.2 with localLock := some p.1 })

/-- `releaseLocalLock`: unlink the local lock file (ENOENT tolerated). -/
def releaseLocalLock (w : LockWorld) : LockWorld :=
  { w with localLock := none }

/-- The identity key `` `${user}@${hostname}:${pid}:${startedAt}` `` built
by `compareLocksAndPrompt` for each side. -/
def lockKey (p : LockPayload) : String :=
  p.user ++ "@" ++ p.hostname ++ ":" ++ toString p.pid ++ ":" ++ p.startedAt

/-- The `started by …` identity text interpolated into lock errors and the
stale-lock prompt (empty strings are the falsy case of the source's
ternaries). -/
def lockIdentitySummary (details : LockPayload) : String :=
  (if details.user == "" then "unknown user"
    else details.user ++ "@" ++ details.hostname) ++
    (if details.startedAt == "" then "" else " at " ++ details.startedAt)

/-- The fatal message `acquireRemoteLock` throws when the remote lock
cannot be taken over; it surfaces the remote payload's identity. -/
def lockErrorMessage (remoteCwd : String) (details : LockPayload) : String :=
  "Another deployment is currently in progress on the server (started by " ++
    lockIdentitySummary details ++ "). Remove " ++ remoteCwd ++
    "/.zephyr/deploy.lock if you are sure it is stale."

/-- `compareLocksAndPrompt`: with both markers present and their identity
keys equal, prompt; on confirmation remove the remote marker and the local
one and report `true`; in every other case report `false` and leave the
world unchanged. -/
def compareLocksAndPrompt (env : LockEnv) (w : LockWorld) : Bool × LockWorld :=
  match w.localLock, w.remoteLock with
  | some localLock, some remoteLock =>
    if lockKey localLock == lockKey remoteLock then
      if env.confirmRemove then
        (true, releaseLocalLock { w with remoteLock := none })
      else (false, w)
    else (false, w)
  | _, _ => (false, w)

/-- The unconditional tail of `acquireRemoteLock`: create a payload, write
it to the remote lock file, then `acquireLocalLock` (which creates a
second payload). -/
def writeFreshLocks (env : LockEnv) (w : LockWorld) : LockWorld :=
  let p := createLockPayload env w
  let w2 := { p.2 with remoteLock := some p.1 }
  (acquireLocalLock env w2).2

/-- `acquireRemoteLock`: if a remote marker exists, attempt the stale-lock
takeover through `compareLocksAndPrompt` when a local marker exists too,
throwing the conflict error if it does not succeed; then (or when no
remote marker existed) write fresh remote and local markers. -/
def acquireRemoteLock (env : LockEnv) (remoteCwd : String) (w : LockWorld) :
    Except String LockWorld :=
  match w.remoteLock with
  | some remotePayload =>
    match w.localLock with
    | some _ =>
      let r := compareLocksAndPrompt env w
      if r.1 then .ok (writeFreshLocks env r.2)
      else .error (lockErrorMessage remoteCwd remotePayload)
    | none => .error (lockErrorMessage remoteCwd remotePayload)
  | none => .ok (writeFreshLocks env w)

/-- C1 (code bug): on a fresh acquisition the remote lock file receives the
payload of one `createLockPayload` call and the local lock file the payload
of a second, later call, so whenever the clock has advanced in between
(here tick 0 vs tick 1) the two `startedAt` fields differ — the payloads
are not identical in all four fields, and the identity-key comparison that
stale-lock recovery relies on can never match them. -/
theorem lock_payloads_not_identical :
    acquireRemoteLock
        ⟨⟨"alice", 42, "host"⟩, fun n => "2026-01-01T00:00:00.00" ++ toString n ++ "Z", false⟩
        "/srv/app" ⟨none, none, 0⟩ =
      .ok { localLock := some ⟨"alice", 42, "host", "2026-01-01T00:00:00.001Z"⟩,
            remoteLock := some ⟨"alice", 42, "host", "2026-01-01T00:00:00.000Z"⟩,
            clock := 2 } ∧
    ("2026-01-01T00:00:00.000Z" : String) ≠ "2026-01-01T00:00:00.001Z" := by
  constructor
  · rfl
  · decide

/-- C2 amended: with a remote marker present, takeover succeeds (removing
both markers and re-acquiring with fresh payloads) exactly when a local
marker exists whose identity key `user@hostname:pid:startedAt` equals the
remote's and the operator confirms; if the keys differ, or the removal is
declined, or no local marker exists, `acquireRemoteLock` throws the
conflict error carrying the remote payload's identity. -/
theorem acquireRemoteLock_conflict_spec (env : LockEnv) (remoteCwd : String)
    (w : LockWorld) (remoteP : LockPayload) (hr : w.remoteLock = some remoteP) :
    (∀ localP, w.localLock = some localP → lockKey localP = lockKey remoteP →
      env.confirmRemove = true →
      acquireRemoteLock env remoteCwd w =
        .ok { localLock := some ⟨env.identity.user, env.identity.pid,
                env.identity.hostname, env.time (w.clock + 1)⟩,
              remoteLock := some ⟨env.identity.user, env.identity.pid,
                env.identity.hostname, env.time w.clock⟩,
              clock := w.clock + 2 }) ∧
    (∀ localP, w.localLock = some localP → lockKey localP ≠ lockKey remoteP →
      acquireRemoteLock env remoteCwd w = .error (lockErrorMessage remoteCwd remoteP)) ∧
    (env.confirmRemove = false → w.localLock.isSome = true →
      acquireRemoteLock env remoteCwd w = .error (lockErrorMessage remoteCwd remoteP)) ∧
    (w.localLock = none →
      acquireRemoteLock env remoteCwd w = .error (lockErrorMessage remoteCwd remoteP)) := by
  obtain ⟨localLock, remoteLock, clock⟩ := w
  cases hr
  refine ⟨fun localP hl hkey hconfirm => ?_, fun localP hl hkey => ?_,
    fun hconfirm hsome => ?_, fun hl => ?_⟩
  · cases hl
    simp [acquireRemoteLock, compareLocksAndPrompt, hkey, hconfirm,
      writeFreshLocks, acquireLocalLock, createLockPayload, releaseLocalLock]
  · cases hl
    simp [acquireRemoteLock, compareLocksAndPrompt, hkey]
  · cases hls : localLock with
    | none => rw [hls] at hsome; simp at hsome
    | some localP =>
      simp [acquireRemoteLock, compareLocksAndPrompt, hconfirm]
  · cases hl
    simp [acquireRemoteLock]

/-- Witness for the amended C2 theorem: a matching stale pair is taken
over and re-acquired on confirmation, and a remote marker without a local
one is a fatal conflict. -/
theorem acquireRemoteLock_conflict_spec_witness :
    (acquireRemoteLock ⟨⟨"alice", 42, "host"⟩, fun n => toString n, true⟩ "/srv"
        ⟨some ⟨"u", 1, "h", "t"⟩, some ⟨"u", 1, "h", "t"⟩, 5⟩ =
      .ok { localLock := some ⟨"alice", 42, "host", "6"⟩,
            remoteLock := some ⟨"alice", 42, "host", "5"⟩, clock := 7 }) ∧
    (acquireRemoteLock ⟨⟨"alice", 42, "host"⟩, fun n => toString n, true⟩ "/srv"
        ⟨none, some ⟨"u", 1, "h", "t"⟩, 5⟩ =
      .error (lockErrorMessage "/srv" ⟨"u", 1, "h", "t"⟩)) :=
  ⟨(acquireRemoteLock_conflict_spec
      ⟨⟨"alice", 42, "host"⟩, fun n => toString n, true⟩ "/srv"
      ⟨some ⟨"u", 1, "h", "t"⟩, some ⟨"u", 1, "h", "t"⟩, 5⟩ ⟨"u", 1, "h", "t"⟩ rfl).1
      ⟨"u", 1, "h", "t"⟩ rfl rfl rfl,
    (acquireRemoteLock_conflict_spec
      ⟨⟨"alice", 42, "host"⟩, fun n => toString n, true⟩ "/srv"
      ⟨none, some ⟨"u", 1, "h", "t"⟩, 5⟩ ⟨"u", 1, "h", "t"⟩ rfl).2.2.2 rfl⟩

/-- C2 counterexample: the source compares the *flattened* identity keys,
not the four fields, so two payloads that differ in `user` and `hostname`
can collide into the same key (a `@` inside `user`); removal is then
offered and acquisition succeeds even though the payloads differ, where
the claim requires a fatal error. -/
theorem differing_payloads_reacquire_counterexample :
    (LockPayload.user ⟨"a@b", 1, "c", "t"⟩ ≠ LockPayload.user ⟨"a", 1, "b@c", "t"⟩) ∧
    (acquireRemoteLock ⟨⟨"alice", 42, "host"⟩, fun n => toString n, true⟩ "/srv/app"
        ⟨some ⟨"a@b", 1, "c", "t"⟩, some ⟨"a", 1, "b@c", "t"⟩, 0⟩).isOk = true := by
  constructor
  · decide
  · rfl

/-! ## Local repository reconciler (`ensureLocalRepositoryState`)

The reconciler's decision logic over the data it reads: the current
branch, the initial `git status --porcelain` output, the ahead/behind
state (ahead only warns and is omitted), and the re-read statuses. The
effectful collaborators are summarised by their observable outcomes:
`pullSucceeds` for `git pull --ff-only`, `pushOutcome` for
`ensureCommittedChangesPushed` (`none` = returned, `some e` = threw `e`);
`git checkout` and `git commit`/`git push` themselves are assumed to
succeed, with the statuses re-read afterwards supplied in the
environment. -/

/-- `hasStagedChanges` from the git-state module: a porcelain status has
staged changes when some non-blank line starts with a character other
than space and `?`. -/
def hasStagedChanges (statusOutput : String) : Bool :=
  if statusOutput.length == 0 then false
  else
    ((splitLines statusOutput).filter
        (fun line => (strTrim line).length != 0)).any
      (fun line =>
        match line.data.head? with
        | none => false
        | some firstChar => firstChar != ' ' && firstChar != '?')

/-- A porcelain status consisting only of untracked-file lines (`?? path`). -/
def isUntrackedOnlyStatus (statusOutput : String) : Bool :=
  ((splitLines statusOutput).filter
      (fun line => (strTrim line).length != 0)).all
    (fun line => strStartsWith line "??")

structure RepoEnv where
  currentBranch : String
  initialStatus : String
  behindCount : Nat
  pullSucceeds : Bool
  pullErrorMessage : String
  statusAfterCheckout : String
  pushOutcome : Option String
  finalStatusAfterCommit : String
deriving DecidableEq, Repr

inductive ReconcileResult where
  | cleanNoCommit
  | committedAndPushed
deriving DecidableEq, Repr

/-- `ensureLocalRepositoryState`: validate branch and repository, fast
forward when behind, refuse a branch switch over a dirty status, and
either return on a clean/unstaged tree (after pushing committed work) or
run the commit-and-push flow, failing if the tree stays dirty. -/
def ensureLocalRepositoryState (targetBranch : String) (env : RepoEnv) :
    Except String ReconcileResult :=
  if targetBranch == "" then
    .error "Deployment branch is not defined in the release configuration."
  else if env.currentBranch == "" then
    .error "Unable to determine the current git branch. Ensure this is a git repository."
  else
    let hasPendingChanges := env.initialStatus.length != 0
    if env.behindCount > 0 && !env.pullSucceeds then
      .error ("Unable to fast-forward " ++ env.currentBranch ++
        " with upstream changes. Resolve conflicts manually, then rerun the deployment.\n" ++
        env.pullErrorMessage)
    else if env.currentBranch != targetBranch && hasPendingChanges then
      .error ("Local repository has uncommitted changes on " ++ env.currentBranch ++
        ". Commit or stash them before switching to " ++ targetBranch ++ ".")
    else
      let statusAfterCheckout :=
        if env.currentBranch == targetBranch then env.initialStatus
        else env.statusAfterCheckout
      if statusAfterCheckout.length == 0 then
        match env.pushOutcome with
        | some e => .error e
        | none => .ok .cleanNoCommit
      else if !hasStagedChanges statusAfterCheckout then
        match env.pushOutcome with
        | some e => .error e
        | none => .ok .cleanNoCommit
      else if env.finalStatusAfterCommit.length != 0 then
        .error "Local repository still has uncommitted changes after commit. Aborting deployment."
      else
        match env.pushOutcome with
        | some e => .error e
        | none => .ok .committedAndPushed

/-- C9 counterexample: an untracked-only status (`?? notes.txt`) with every
other condition benign blocks the deployment as soon as the current branch
(`develop`) differs from the target (`main`) — the reconciler fails solely
because of untracked files in the branch-switch case. -/
theorem untracked_blocks_checkout_counterexample :
    isUntrackedOnlyStatus "?? notes.txt" = true ∧
    ensureLocalRepositoryState "main"
        { currentBranch := "develop", initialStatus := "?? notes.txt",
          behindCount := 0, pullSucceeds := true, pullErrorMessage := "",
          statusAfterCheckout := "", pushOutcome := none,
          finalStatusAfterCommit := "" } =
      .error ("Local repository has uncommitted changes on develop. Commit or stash them before switching to main.") := by
  constructor
  · decide
  · rfl

/-- C9 amended: untracked files never block deployment when the repository
is already on the target branch — with no staged changes the reconciler
returns successfully whatever unstaged/untracked lines the status holds;
but when the current branch differs from the target, any non-empty status,
including an untracked-only one, aborts with the uncommitted-changes
error. -/
theorem reconciler_untracked_spec (targetBranch : String) (env : RepoEnv)
    (hb : ¬ targetBranch = "")
    (hpull : env.behindCount = 0 ∨ env.pullSucceeds = true)
    (hpush : env.pushOutcome = none) :
    (env.currentBranch = targetBranch → hasStagedChanges env.initialStatus = false →
      ensureLocalRepositoryState targetBranch env = .ok .cleanNoCommit) ∧
    (¬ env.currentBranch = targetBranch → ¬ env.currentBranch = "" →
      env.initialStatus.length ≠ 0 →
      ensureLocalRepositoryState targetBranch env =
        .error ("Local repository has uncommitted changes on " ++ env.currentBranch ++
          ". Commit or stash them before switching to " ++ targetBranch ++ ".")) := by
  have hsync : (env.behindCount > 0 && !env.pullSucceeds) = false := by
    rcases hpull with h | h <;> simp [h]
  constructor
  · intro hcur hstaged
    simp only [ensureLocalRepositoryState, hsync, hcur, hpush, beq_iff_eq, hb,
      if_false, Bool.false_eq_true, bne_self_eq_false, Bool.false_and, beq_self_eq_true,
      if_true]
    by_cases hempty : env.initialStatus.length == 0 <;> simp [hempty, hstaged, hb, hpush]
  · intro hne hcb hlen
    have hbne : (env.currentBranch != targetBranch) = true := by
      simp [bne_iff_ne, hne]
    have hpending : (env.initialStatus.length != 0) = true := by
      simp [bne_iff_ne, hlen]
    simp [ensureLocalRepositoryState, hsync, hbne, hpending, hb, hcb]

/-- Witness for the amended C9 theorem: on the target branch an
untracked-only status returns success, and off the target branch the same
status aborts. -/
theorem reconciler_untracked_spec_witness :
    ensureLocalRepositoryState "main"
        { currentBranch := "main", initialStatus := "?? notes.txt",
          behindCount := 0, pullSucceeds := true, pullErrorMessage := "",
          statusAfterCheckout := "", pushOutcome := none,
          finalStatusAfterCommit := "" } =
      .ok .cleanNoCommit :=
  (reconciler_untracked_spec "main"
      { currentBranch := "main", initialStatus := "?? notes.txt",
        behindCount := 0, pullSucceeds := true, pullErrorMessage := "",
        statusAfterCheckout := "", pushOutcome := none,
        finalStatusAfterCommit := "" }
      (by decide) (Or.inl rfl) rfl).1 rfl (by decide)

end Zephyr
